import Mathlib

/-!
Shallow embedding of the Teleco Daisy client
(`custom_components/teleco_daisy/teleco_daisy.py`) and proofs about its
status decoding, command construction, login state handling, room/device
classification and acknowledgment polling.

Python strings are modelled as Lean `String` (a wrapper around `List Char`);
Python `int(...)` on a string is modelled by `pyInt`, Python slicing
`s[a:b]` by `pySlice`, and the f-string field `{n:03d}` by `pad3`.
Exceptions are modelled either by an explicit error flag on the resulting
state (for mutating methods) or by `Except` (for methods that return a
value).
-/

namespace TelecoDaisy

/-! ## Python primitives -/

/-- Decimal digit characters, used to model zero-padded integer formatting.
For `d ≤ 9` this is the character of the digit `d`. -/
def digitChar (d : Nat) : Char :=
  if d = 0 then '0'
  else if d = 1 then '1'
  else if d = 2 then '2'
  else if d = 3 then '3'
  else if d = 4 then '4'
  else if d = 5 then '5'
  else if d = 6 then '6'
  else if d = 7 then '7'
  else if d = 8 then '8'
  else '9'

/-- Numeric value of a decimal digit character, `none` for any other char. -/
def digitVal (c : Char) : Option Nat :=
  if c = '0' then some 0
  else if c = '1' then some 1
  else if c = '2' then some 2
  else if c = '3' then some 3
  else if c = '4' then some 4
  else if c = '5' then some 5
  else if c = '6' then some 6
  else if c = '7' then some 7
  else if c = '8' then some 8
  else if c = '9' then some 9
  else none

/-- Accumulating decimal evaluation of a digit list; `none` on a non-digit. -/
def digitsValAux : List Char → Nat → Option Nat
  | [], acc => some acc
  | c :: cs, acc =>
    match digitVal c with
    | some d => digitsValAux cs (acc * 10 + d)
    | none => none

/-- Value of a non-empty all-digit character list, `none` otherwise. -/
def digitsVal (cs : List Char) : Option Nat :=
  match cs with
  | [] => none
  | _ => digitsValAux cs 0

/-- Strip leading and trailing spaces, as Python `int` does before parsing. -/
def pyStrip (cs : List Char) : List Char :=
  ((cs.dropWhile (fun c => c = ' ')).reverse.dropWhile (fun c => c = ' ')).reverse

/-- Model of Python `int(s)` on a string: strips surrounding spaces, accepts
an optional sign followed by a non-empty run of decimal digits, and fails
(`ValueError`, modelled as `none`) on anything else. -/
def pyInt (s : String) : Option Int :=
  match pyStrip s.toList with
  | [] => none
  | c :: rest =>
    if c = '-' then (digitsVal rest).map (fun n => -(n : Int))
    else if c = '+' then (digitsVal rest).map (fun n => (n : Int))
    else (digitsVal (c :: rest)).map (fun n => (n : Int))

/-- Model of the Python slice `s[a:b]` for `0 ≤ a ≤ b`. -/
def pySlice (s : String) (a b : Nat) : String :=
  ⟨(s.toList.drop a).take (b - a)⟩

/-- Model of the f-string field `{n:03d}`: minimum width 3, zero padded.
Faithful for `n ≤ 999`, which covers every value the client formats
(brightness `0–100` and rgb channels `0–255` after validation). -/
def pad3 (n : Nat) : List Char :=
  [digitChar (n / 100 % 10), digitChar (n / 10 % 10), digitChar (n % 10)]

/-! ## Status items and device state -/

/-- The fields of a `DaisyStatus` record that the decoders read
(`statusitemCode` selects the branch, `statusValue` carries the payload). -/
structure DaisyStatus where
  statusitemCode : String
  statusValue : String
deriving DecidableEq, Repr

/-- Mutable state of a `DaisyLight` (`is_on`, `brightness`, `rgb`),
each field `None`-initialised in the source. -/
structure LightState where
  is_on : Option Bool
  brightness : Option Int
  rgb : Option (Int × Int × Int)
deriving DecidableEq, Repr

/-- Mutable state of a `DaisyCover` / `DaisyShade` (`position`, `is_closed`). -/
structure CoverState where
  position : Option Int
  is_closed : Option Bool
deriving DecidableEq, Repr

/-- One iteration of the loop in `DaisyLight.update_state`: a `POWER` item
sets `is_on`; a `COLOR` item sets `brightness` from `int(val[1:4])` and then
`rgb` from `(int(val[5:8]), int(val[9:12]), int(val[13:16]))`.  A failing
`int` conversion raises: the returned flag is `true` and, as in Python,
assignments already executed are kept while later ones do not happen. -/
def lightStep (st : LightState) (s : DaisyStatus) : LightState × Bool :=
  let st1 := if s.statusitemCode = "POWER"
    then { st with is_on := some (s.statusValue = "ON") } else st
  if s.statusitemCode = "COLOR" then
    match pyInt (pySlice s.statusValue 1 4) with
    | none => (st1, true)
    | some b =>
      let st2 := { st1 with brightness := some b }
      match pyInt (pySlice s.statusValue 5 8), pyInt (pySlice s.statusValue 9 12),
            pyInt (pySlice s.statusValue 13 16) with
      | some r, some g, some bl => ({ st2 with rgb := some (r, g, bl) }, false)
      | _, _, _ => (st2, true)
  else (st1, false)

/-- The loop of `DaisyLight.update_state` over a status list: items are
processed in order; a raised exception aborts the rest of the loop. -/
def lightUpdate (st : LightState) : List DaisyStatus → LightState × Bool
  | [] => (st, false)
  | s :: rest =>
    match lightStep st s with
    | (st1, true) => (st1, true)
    | (st1, false) => lightUpdate st1 rest

/-- One iteration of the loop in `DaisyCover.update_state` (the body of
`DaisyShade.update_state` is textually identical): an `OPEN_CLOSE` item sets
the tri-state `is_closed`; a `LEVEL` item sets `position` from
`int(status.statusValue)`, raising on a non-integer value. -/
def coverStep (st : CoverState) (s : DaisyStatus) : CoverState × Bool :=
  let st1 := if s.statusitemCode = "OPEN_CLOSE"
    then { st with is_closed :=
            if s.statusValue = "CLOSE" then some true
            else if s.statusValue = "OPEN" then some false
            else none }
    else st
  if s.statusitemCode = "LEVEL" then
    match pyInt s.statusValue with
    | some n => ({ st1 with position := some n }, false)
    | none => (st1, true)
  else (st1, false)

/-- The loop of `DaisyCover.update_state` / `DaisyShade.update_state`. -/
def coverUpdate (st : CoverState) : List DaisyStatus → CoverState × Bool
  | [] => (st, false)
  | s :: rest =>
    match coverStep st s with
    | (st1, true) => (st1, true)
    | (st1, false) => coverUpdate st1 rest

/-! ## Write sets

To reason about repeated decoding we characterise an `update_state` run by
the set of field writes it performs, which depends only on the status list,
never on the state the run starts from. -/

/-- Override of an optional write (`a`, the later write) over another. -/
def owrite {α : Type} (a b : Option α) : Option α :=
  match a with
  | some v => some v
  | none => b

/-- The writes a light decode performs: for each field, `none` when the
field is untouched, `some v` when it is assigned `v`. -/
structure LightWrites where
  is_on : Option (Option Bool)
  brightness : Option (Option Int)
  rgb : Option (Option (Int × Int × Int))
deriving DecidableEq, Repr

/-- No writes. -/
def LightWrites.empty : LightWrites := ⟨none, none, none⟩

/-- Apply a write set to a light state. -/
def applyLightWrites (st : LightState) (w : LightWrites) : LightState :=
  ⟨w.is_on.getD st.is_on, w.brightness.getD st.brightness, w.rgb.getD st.rgb⟩

/-- Sequence two light write sets (the second wins fieldwise). -/
def combineLightWrites (w1 w2 : LightWrites) : LightWrites :=
  ⟨owrite w2.is_on w1.is_on, owrite w2.brightness w1.brightness, owrite w2.rgb w1.rgb⟩

/-- The writes and error flag of one `DaisyLight.update_state` iteration,
read off the status item alone (mirrors `lightStep`). -/
def lightStepWrites (s : DaisyStatus) : LightWrites × Bool :=
  let w1 := if s.statusitemCode = "POWER"
    then LightWrites.mk (some (some (s.statusValue = "ON"))) none none
    else LightWrites.empty
  if s.statusitemCode = "COLOR" then
    match pyInt (pySlice s.statusValue 1 4) with
    | none => (w1, true)
    | some b =>
      let w2 := { w1 with brightness := some (some b) }
      match pyInt (pySlice s.statusValue 5 8), pyInt (pySlice s.statusValue 9 12),
            pyInt (pySlice s.statusValue 13 16) with
      | some r, some g, some bl => ({ w2 with rgb := some (some (r, g, bl)) }, false)
      | _, _, _ => (w2, true)
  else (w1, false)

/-- The writes and error flag of a full light decode run (mirrors
`lightUpdate`). -/
def lightListWrites : List DaisyStatus → LightWrites × Bool
  | [] => (LightWrites.empty, false)
  | s :: rest =>
    match lightStepWrites s with
    | (w, true) => (w, true)
    | (w, false) =>
      match lightListWrites rest with
      | (w2, e) => (combineLightWrites w w2, e)

/-- The writes a cover decode performs. -/
structure CoverWrites where
  position : Option (Option Int)
  is_closed : Option (Option Bool)
deriving DecidableEq, Repr

/-- No writes. -/
def CoverWrites.empty : CoverWrites := ⟨none, none⟩

/-- Apply a write set to a cover state. -/
def applyCoverWrites (st : CoverState) (w : CoverWrites) : CoverState :=
  ⟨w.position.getD st.position, w.is_closed.getD st.is_closed⟩

/-- Sequence two cover write sets (the second wins fieldwise). -/
def combineCoverWrites (w1 w2 : CoverWrites) : CoverWrites :=
  ⟨owrite w2.position w1.position, owrite w2.is_closed w1.is_closed⟩

/-- The writes and error flag of one `DaisyCover.update_state` iteration
(mirrors `coverStep`). -/
def coverStepWrites (s : DaisyStatus) : CoverWrites × Bool :=
  let w1 := if s.statusitemCode = "OPEN_CLOSE"
    then CoverWrites.mk none
          (some (if s.statusValue = "CLOSE" then some true
                 else if s.statusValue = "OPEN" then some false
                 else none))
    else CoverWrites.empty
  if s.statusitemCode = "LEVEL" then
    match pyInt s.statusValue with
    | some n => ({ w1 with position := some (some n) }, false)
    | none => (w1, true)
  else (w1, false)

/-- The writes and error flag of a full cover decode run (mirrors
`coverUpdate`). -/
def coverListWrites : List DaisyStatus → CoverWrites × Bool
  | [] => (CoverWrites.empty, false)
  | s :: rest =>
    match coverStepWrites s with
    | (w, true) => (w, true)
    | (w, false) =>
      match coverListWrites rest with
      | (w2, e) => (combineCoverWrites w w2, e)

/-! ## Commands -/

/-- One entry of the `commandsList` payload built by the action methods.
`lowlevelCommand = none` models both an absent `"lowlevelCommand"` key and
an explicit `None` value (the wire difference is irrelevant to the claims). -/
structure DaisyCommand where
  deviceCode : String
  idInstallationDevice : Int
  commandAction : String
  commandId : Int
  commandParam : String
  lowlevelCommand : Option String
deriving DecidableEq, Repr

/-- Python exceptions raised by the action methods before any network call:
a failed dict lookup (`KeyError`) or a failed range check (`ValueError`). -/
inductive PyError where
  | keyError
  | valueError
deriving DecidableEq, Repr

/-- The identity fields of a device that command construction reads. -/
structure DeviceIds where
  deviceIndex : Int
  idInstallationDevice : Int
  idDevicetype : Int
deriving DecidableEq, Repr

/-- The `osc_map` of `DaisyCover._open_stop_close` (device type 24). -/
def coverOscMap (k : String) : Option (String × Int × String) :=
  if k = "open" then some ("OPEN", 94, "CH4")
  else if k = "stop" then some ("STOP", 95, "CH7")
  else if k = "close" then some ("CLOSE", 96, "CH1")
  else none

/-- The `osc_map` of `DaisyShade._open_stop_close` (device type 22). -/
def shadeOscMap (k : String) : Option (String × Int × String) :=
  if k = "open" then some ("OPEN", 75, "CH5")
  else if k = "stop" then some ("STOP", 76, "CH7")
  else if k = "close" then some ("CLOSE", 77, "CH8")
  else none

/-- The `percent_map` of `DaisyCover._control_cover` and
`DaisyShade._control_cover` (they are identical), looked up with the
`percent` argument, which may be `None`; any key outside
`{"33", "66", "100"}` raises `KeyError`. -/
def percentMapLookup (p : Option String) : Option (String × Int × String) :=
  if p = some "33" then some ("LEV2", 97, "CH2")
  else if p = some "66" then some ("LEV3", 98, "CH3")
  else if p = some "100" then some ("LEV4", 99, "CH4")
  else none

/-- Command built by `_open_stop_close` from a `(param, id, lowlevel)` map
entry; the single dict sent in `commandsList`. -/
def oscCommand (d : DeviceIds) (e : String × Int × String) : DaisyCommand :=
  ⟨toString d.deviceIndex, d.idInstallationDevice, "OPEN_STOP_CLOSE", e.2.1, e.1, some e.2.2⟩

/-- Command built by `_control_cover` from a `percent_map` entry. -/
def levelCommand (d : DeviceIds) (e : String × Int × String) : DaisyCommand :=
  ⟨toString d.deviceIndex, d.idInstallationDevice, "LEVEL", e.2.1, e.1, some e.2.2⟩

/-- `DaisyCover._open_stop_close`: look the action up in `osc_map` and send
the single resulting command. -/
def coverOpenStopClose (d : DeviceIds) (k : String) : Except PyError DaisyCommand :=
  match coverOscMap k with
  | none => .error .keyError
  | some e => .ok (oscCommand d e)

/-- `DaisyShade._open_stop_close`. -/
def shadeOpenStopClose (d : DeviceIds) (k : String) : Except PyError DaisyCommand :=
  match shadeOscMap k with
  | none => .error .keyError
  | some e => .ok (oscCommand d e)

/-- `DaisyCover._control_cover` = `DaisyShade._control_cover`: look `percent`
up in `percent_map` (raising `KeyError` when absent, in particular for
`None`) and send the single LEVEL command. -/
def controlCover (d : DeviceIds) (percent : Option String) : Except PyError DaisyCommand :=
  match percentMapLookup percent with
  | none => .error .keyError
  | some e => .ok (levelCommand d e)

/-- `DaisyCover.open_cover(percent)`: `percent == "100"` goes through
`_open_stop_close("open")`; every other value, including the default
`None`, goes through `_control_cover(percent)`. -/
def coverOpenCover (d : DeviceIds) (percent : Option String) : Except PyError DaisyCommand :=
  if percent = some "100" then coverOpenStopClose d "open"
  else controlCover d percent

/-- `DaisyShade.open_cover(percent)`. -/
def shadeOpenCover (d : DeviceIds) (percent : Option String) : Except PyError DaisyCommand :=
  if percent = some "100" then shadeOpenStopClose d "open"
  else controlCover d percent

/-- Python `x or default` on an optional integer (`0` and `None` are falsy). -/
def pyOrInt (o : Option Int) (d : Int) : Int :=
  match o with
  | none => d
  | some v => if v = 0 then d else v

/-- The f-string `f"A{brightness:03d}R{rgb[0]:03d}G{rgb[1]:03d}B{rgb[2]:03d}"`. -/
def encodeColor (b r g bl : Nat) : String :=
  ⟨'A' :: pad3 b ++ 'R' :: pad3 r ++ 'G' :: pad3 g ++ 'B' :: pad3 bl⟩

/-- `DaisyLight.set_rgb_and_brightness(rgb, brightness)`: defaults are taken
from the current state (`self.brightness or 0`, `self.rgb or (255,255,255)`),
the range checks raise `ValueError` before `feed_the_commands` is reached,
and the single COLOR command is sent.  The `if self.idDevicetype == 21 / 23`
block of the source assigns local variables `commandId` and
`lowlevelCommand` that the command dict below it never references: the dict
carries the literal `commandId: 137` and no `lowlevelCommand` key at all. -/
def setRgbAndBrightness (d : DeviceIds) (st : LightState)
    (rgb : Option (Int × Int × Int)) (brightness : Option Int) :
    Except PyError DaisyCommand :=
  let b := match brightness with
    | none => pyOrInt st.brightness 0
    | some b => b
  if b < 0 ∨ b > 100 then .error .valueError
  else
    let c := match rgb with
      | none => st.rgb.getD (255, 255, 255)
      | some c => c
    if c.1 < 0 ∨ c.1 > 255 ∨ c.2.1 < 0 ∨ c.2.1 > 255 ∨ c.2.2 < 0 ∨ c.2.2 > 255 then
      .error .valueError
    else
      .ok ⟨toString d.deviceIndex, d.idInstallationDevice, "COLOR", 137,
           encodeColor b.toNat c.1.toNat c.2.1.toNat c.2.2.toNat, none⟩

/-! ## Login -/

/-- The session fields of the `TelecoDaisy` client, both `None` initially. -/
structure ClientState where
  idAccount : Option Int
  idSession : Option String
deriving DecidableEq, Repr

/-- The fields of the login response that `TelecoDaisy.login` reads:
`codEsito` and `valRisultato.idAccount` / `valRisultato.idSession`. -/
structure LoginResponse where
  codEsito : String
  idAccount : Int
  idSession : String
deriving DecidableEq, Repr

/-- `TelecoDaisy.login`: when `codEsito != "S"` an exception is raised
before either assignment, so the session fields are untouched (flag `true`);
otherwise both fields are assigned from the response. -/
def login (st : ClientState) (r : LoginResponse) : ClientState × Bool :=
  if r.codEsito ≠ "S" then (st, true)
  else ({ st with idAccount := some r.idAccount, idSession := some r.idSession }, false)

/-! ## Room and device classification -/

/-- A raw device entry of a room payload, reduced to the field the
classification reads (`idDevicetype`) plus its label as carried data. -/
structure RawDevice where
  idDevicetype : Int
  label : String
deriving DecidableEq, Repr

/-- The variant a raw device entry is instantiated as by
`TelecoDaisy.get_room_list`. -/
inductive RoomDevice where
  | light (d : RawDevice)
  | shade (d : RawDevice)
  | cover (d : RawDevice)
deriving DecidableEq, Repr

/-- The `if device["idDevicetype"] in (21, 23) / == 22 / == 24` chain of the
device loop in `get_room_list`; an entry matching no branch is appended to
no list (dropped) and the loop continues. -/
def classifyDevice (d : RawDevice) : Option RoomDevice :=
  if d.idDevicetype = 21 ∨ d.idDevicetype = 23 then some (.light d)
  else if d.idDevicetype = 22 then some (.shade d)
  else if d.idDevicetype = 24 then some (.cover d)
  else none

/-- The device loop of `get_room_list` over one room's `deviceList`. -/
def buildDeviceList (ds : List RawDevice) : List RoomDevice :=
  ds.filterMap classifyDevice

/-- Whether a classified device is the Light variant. -/
def RoomDevice.isLight : RoomDevice → Bool
  | .light _ => true
  | _ => false

/-- Whether a classified device is one of the two cover variants
(`DaisyShade`, type 22, or `DaisyCover`, type 24). -/
def RoomDevice.isCoverVariant : RoomDevice → Bool
  | .shade _ => true
  | .cover _ => true
  | _ => false

/-! ## Acknowledgment polling -/

/-- The fields of a `getackcommand` response that `_get_ack` reads. -/
structure AckResponse where
  messageID : String
  messageText : String
deriving DecidableEq, Repr

/-- Outcome of one `_get_ack` call chain: `{"success": True}`,
`{"success": False}`, or the `assert result["MessageID"] == "WS-300"`
raising `AssertionError`. The source defines no timeout outcome. -/
inductive AckResult where
  | succeeded
  | failed
  | assertFailed
deriving DecidableEq, Repr

/-- Fuel-indexed unrolling of the recursion in `TelecoDaisy._get_ack` over a
stream of responses (`stream i` is the reply to the `i`-th poll): on
`MessageText == "RCV"` the source sleeps 0.5 s and recurses; `"PROC"`
returns success; anything else returns failure.  The result pairs the
outcome with the number of polls performed.  `none` means the recursion is
still running after `fuel` polls — the source itself has no bound, so a
result of `none` at every fuel exhibits non-termination. -/
def getAck (stream : Nat → AckResponse) (i : Nat) : Nat → Option (AckResult × Nat)
  | 0 => none
  | fuel + 1 =>
    let r := stream i
    if r.messageID ≠ "WS-300" then some (.assertFailed, i + 1)
    else if r.messageText = "RCV" then getAck stream (i + 1) fuel
    else if r.messageText = "PROC" then some (.succeeded, i + 1)
    else some (.failed, i + 1)

/-- The response stream drawn from a finite script, repeating the last entry
(a script shorter than the poll count never occurs in the claims). -/
def streamOf (l : List AckResponse) (i : Nat) : AckResponse :=
  l.getD i ⟨"WS-300", "PROC"⟩

/-! ## Digit and parsing lemmas -/

theorem digitVal_digitChar (d : Nat) (h : d ≤ 9) : digitVal (digitChar d) = some d := by
  interval_cases d <;> decide

theorem digitChar_ne_space (d : Nat) : digitChar d ≠ ' ' := by
  unfold digitChar; split_ifs <;> decide

theorem digitChar_ne_minus (d : Nat) : digitChar d ≠ '-' := by
  unfold digitChar; split_ifs <;> decide

theorem digitChar_ne_plus (d : Nat) : digitChar d ≠ '+' := by
  unfold digitChar; split_ifs <;> decide

theorem pyStrip_three (x y z : Char) (hx : x ≠ ' ') (hz : z ≠ ' ') :
    pyStrip [x, y, z] = [x, y, z] := by
  simp [pyStrip, List.dropWhile_cons, hx, hz]

theorem pyInt_pad3 (n : Nat) (h : n < 1000) : pyInt ⟨pad3 n⟩ = some (n : Int) := by
  have ha : n / 100 % 10 ≤ 9 := by omega
  have hb : n / 10 % 10 ≤ 9 := by omega
  have hc : n % 10 ≤ 9 := by omega
  unfold pyInt pad3
  rw [show (String.mk [digitChar (n / 100 % 10), digitChar (n / 10 % 10),
        digitChar (n % 10)]).toList
        = [digitChar (n / 100 % 10), digitChar (n / 10 % 10), digitChar (n % 10)] from rfl]
  rw [pyStrip_three _ _ _ (digitChar_ne_space _) (digitChar_ne_space _)]
  simp only [if_neg (digitChar_ne_minus _), if_neg (digitChar_ne_plus _)]
  simp only [digitsVal, digitsValAux, digitVal_digitChar _ ha, digitVal_digitChar _ hb,
    digitVal_digitChar _ hc, Option.map_some]
  have hval : ((0 * 10 + n / 100 % 10) * 10 + n / 10 % 10) * 10 + n % 10 = n := by omega
  rw [hval]
  rfl

/-! ## Claim C4: round trip of the color codec -/

/-- C4: for every brightness `b ∈ [0,100]` and rgb triple with channels in
`[0,255]`, decoding (via the `COLOR` branch of `DaisyLight.update_state`)
the fixed-width string `A###R###G###B###` produced by the encoder of
`set_rgb_and_brightness` yields exactly `(b, rgb)` — the run sets
`brightness` and `rgb` to the encoded values, raises nothing, and touches
no other field. -/
theorem c4_color_roundtrip (st : LightState) (b r g bl : Nat)
    (hb : b ≤ 100) (hr : r ≤ 255) (hg : g ≤ 255) (hbl : bl ≤ 255) :
    lightUpdate st [⟨"COLOR", encodeColor b r g bl⟩]
      = ({ st with brightness := some ((b : Int)), rgb := some ((↑r, ↑g, ↑bl)) }, false) := by
  have e1 : pyInt (pySlice (encodeColor b r g bl) 1 4) = some (b : Int) := by
    rw [show pySlice (encodeColor b r g bl) 1 4 = ⟨pad3 b⟩ from rfl]
    exact pyInt_pad3 b (by omega)
  have e2 : pyInt (pySlice (encodeColor b r g bl) 5 8) = some (r : Int) := by
    rw [show pySlice (encodeColor b r g bl) 5 8 = ⟨pad3 r⟩ from rfl]
    exact pyInt_pad3 r (by omega)
  have e3 : pyInt (pySlice (encodeColor b r g bl) 9 12) = some (g : Int) := by
    rw [show pySlice (encodeColor b r g bl) 9 12 = ⟨pad3 g⟩ from rfl]
    exact pyInt_pad3 g (by omega)
  have e4 : pyInt (pySlice (encodeColor b r g bl) 13 16) = some (bl : Int) := by
    rw [show pySlice (encodeColor b r g bl) 13 16 = ⟨pad3 bl⟩ from rfl]
    exact pyInt_pad3 bl (by omega)
  simp only [lightUpdate, lightStep, e1, e2, e3, e4]
  simp

/-- C4 witness: decoding `"A050R255G000B000"` (the encoding of brightness 50
and rgb `(255, 0, 0)`) yields brightness 50 and rgb `(255, 0, 0)`. -/
theorem c4_color_roundtrip_witness :
    lightUpdate ⟨none, none, none⟩ [⟨"COLOR", "A050R255G000B000"⟩]
      = (⟨none, some 50, some (255, 0, 0)⟩, false) := by
  rw [show ("A050R255G000B000" : String) = encodeColor 50 255 0 0 from rfl]
  exact c4_color_roundtrip ⟨none, none, none⟩ 50 255 0 0 (by omega) (by omega) (by omega)
    (by omega)

/-! ## Claim C8: status decoding is idempotent -/

theorem lightStep_writes (st : LightState) (s : DaisyStatus) :
    lightStep st s = (applyLightWrites st (lightStepWrites s).1, (lightStepWrites s).2) := by
  simp only [lightStep, lightStepWrites]
  split_ifs with hP hC <;>
    rcases h1 : pyInt (pySlice s.statusValue 1 4) with _ | b <;>
    rcases h2 : pyInt (pySlice s.statusValue 5 8) with _ | r <;>
    rcases h3 : pyInt (pySlice s.statusValue 9 12) with _ | g <;>
    rcases h4 : pyInt (pySlice s.statusValue 13 16) with _ | bl <;>
    simp [h1, h2, h3, h4, applyLightWrites, LightWrites.empty]

theorem applyLightWrites_combine (st : LightState) (w1 w2 : LightWrites) :
    applyLightWrites st (combineLightWrites w1 w2)
      = applyLightWrites (applyLightWrites st w1) w2 := by
  rcases w2 with ⟨a, b, c⟩
  rcases a <;> rcases b <;> rcases c <;> simp [applyLightWrites, combineLightWrites, owrite]

theorem lightUpdate_writes (l : List DaisyStatus) : ∀ st : LightState,
    lightUpdate st l = (applyLightWrites st (lightListWrites l).1, (lightListWrites l).2) := by
  induction l with
  | nil => intro st; simp [lightUpdate, lightListWrites, applyLightWrites, LightWrites.empty]
  | cons s rest ih =>
    intro st
    simp only [lightUpdate, lightListWrites, lightStep_writes st s]
    rcases hw : lightStepWrites s with ⟨w, e⟩
    cases e
    · rcases hrest : lightListWrites rest with ⟨w2, e2⟩
      simp [ih, hrest, applyLightWrites_combine]
    · simp

theorem applyLightWrites_idem (st : LightState) (w : LightWrites) :
    applyLightWrites (applyLightWrites st w) w = applyLightWrites st w := by
  rcases w with ⟨a, b, c⟩
  rcases a <;> rcases b <;> rcases c <;> simp [applyLightWrites]

theorem coverStep_writes (st : CoverState) (s : DaisyStatus) :
    coverStep st s = (applyCoverWrites st (coverStepWrites s).1, (coverStepWrites s).2) := by
  simp only [coverStep, coverStepWrites]
  split_ifs with h1 h2 h3 <;>
    rcases hv : pyInt s.statusValue with _ | n <;>
    simp [hv, applyCoverWrites, CoverWrites.empty]

theorem applyCoverWrites_combine (st : CoverState) (w1 w2 : CoverWrites) :
    applyCoverWrites st (combineCoverWrites w1 w2)
      = applyCoverWrites (applyCoverWrites st w1) w2 := by
  rcases w2 with ⟨a, b⟩
  rcases a <;> rcases b <;> simp [applyCoverWrites, combineCoverWrites, owrite]

theorem coverUpdate_writes (l : List DaisyStatus) : ∀ st : CoverState,
    coverUpdate st l = (applyCoverWrites st (coverListWrites l).1, (coverListWrites l).2) := by
  induction l with
  | nil => intro st; simp [coverUpdate, coverListWrites, applyCoverWrites, CoverWrites.empty]
  | cons s rest ih =>
    intro st
    simp only [coverUpdate, coverListWrites, coverStep_writes st s]
    rcases hw : coverStepWrites s with ⟨w, e⟩
    cases e
    · rcases hrest : coverListWrites rest with ⟨w2, e2⟩
      simp [ih, hrest, applyCoverWrites_combine]
    · simp

theorem applyCoverWrites_idem (st : CoverState) (w : CoverWrites) :
    applyCoverWrites (applyCoverWrites st w) w = applyCoverWrites st w := by
  rcases w with ⟨a, b⟩
  rcases a <;> rcases b <;> simp [applyCoverWrites]

/-- C8: status decoding is idempotent.  For every status list and every
starting state, running the decode loop of `DaisyLight.update_state` a
second time from the state the first run produced reproduces exactly that
state (and the same raised-or-not outcome); likewise for the decode loop of
`DaisyCover.update_state` / `DaisyShade.update_state`. -/
theorem c8_decode_idempotent :
    (∀ (st : LightState) (l : List DaisyStatus),
        lightUpdate (lightUpdate st l).1 l = lightUpdate st l)
  ∧ (∀ (st : CoverState) (l : List DaisyStatus),
        coverUpdate (coverUpdate st l).1 l = coverUpdate st l) := by
  constructor
  · intro st l
    rw [lightUpdate_writes l st]
    rw [lightUpdate_writes l]
    simp [applyLightWrites_idem]
  · intro st l
    rw [coverUpdate_writes l st]
    rw [coverUpdate_writes l]
    simp [applyCoverWrites_idem]

/-! ## Claims C1 and C6: the acknowledgment poller -/

/-- C1 (code evaluated at the failing input): on a stream that answers every
poll with MessageID `"WS-300"` and MessageText `"RCV"`, the recursion of
`TelecoDaisy._get_ack` produces no result at any recursion depth — for
every fuel bound the fuel-indexed unrolling is still pending, so the poll
loop is unbounded, contrary to the claimed maximum number of attempts.
Moreover every outcome the source can produce is success, failure or an
assertion error: no timeout outcome distinct from failure exists. -/
theorem c1_ack_unbounded_on_rcv :
    (∀ fuel i : Nat, getAck (fun _ => ⟨"WS-300", "RCV"⟩) i fuel = none)
  ∧ (∀ r : AckResult, r = .succeeded ∨ r = .failed ∨ r = .assertFailed) := by
  constructor
  · intro fuel
    induction fuel with
    | zero => intro i; rfl
    | succ n ih =>
      intro i
      simp only [getAck]
      simp
      exact ih (i + 1)
  · intro r
    cases r
    · exact Or.inl rfl
    · exact Or.inr (Or.inl rfl)
    · exact Or.inr (Or.inr rfl)

/-- C6: in `_get_ack`, a poll response with MessageText `"RCV"` continues
polling at the next index, `"PROC"` terminates with the Succeeded result,
and any other MessageText terminates with the Failed result without
raising; on the response sequence `["RCV", "RCV", "PROC"]` the result is
Succeeded after exactly 3 polls. -/
theorem c6_ack_transitions :
    (∀ (stream : Nat → AckResponse) (i fuel : Nat),
        stream i = ⟨"WS-300", "RCV"⟩ →
        getAck stream i (fuel + 1) = getAck stream (i + 1) fuel)
  ∧ (∀ (stream : Nat → AckResponse) (i fuel : Nat),
        stream i = ⟨"WS-300", "PROC"⟩ →
        getAck stream i (fuel + 1) = some (.succeeded, i + 1))
  ∧ (∀ (stream : Nat → AckResponse) (i fuel : Nat) (t : String),
        stream i = ⟨"WS-300", t⟩ → t ≠ "RCV" → t ≠ "PROC" →
        getAck stream i (fuel + 1) = some (.failed, i + 1))
  ∧ (∀ fuel, 3 ≤ fuel →
        getAck (streamOf [⟨"WS-300", "RCV"⟩, ⟨"WS-300", "RCV"⟩, ⟨"WS-300", "PROC"⟩]) 0 fuel
          = some (.succeeded, 3)) := by
  refine ⟨?_, ?_, ?_, ?_⟩
  · intro stream i fuel h
    simp [getAck, h]
  · intro stream i fuel h
    simp [getAck, h]
  · intro stream i fuel t h hr hp
    simp [getAck, h, hr, hp]
  · intro fuel h
    obtain ⟨k, rfl⟩ : ∃ k, fuel = k + 3 := ⟨fuel - 3, by omega⟩
    simp [getAck, streamOf]

/-- C6 witness: the transition rules applied at concrete inputs, including
the scripted sequence `["RCV", "RCV", "PROC"]` succeeding after 3 polls. -/
theorem c6_ack_transitions_witness :
    getAck (streamOf [⟨"WS-300", "RCV"⟩, ⟨"WS-300", "RCV"⟩, ⟨"WS-300", "PROC"⟩]) 0 5
      = some (.succeeded, 3)
  ∧ getAck (fun _ => ⟨"WS-300", "PROC"⟩) 0 1 = some (.succeeded, 1)
  ∧ getAck (fun _ => ⟨"WS-300", "NACK"⟩) 0 1 = some (.failed, 1)
  ∧ getAck (fun _ => ⟨"WS-300", "RCV"⟩) 0 1 = getAck (fun _ => ⟨"WS-300", "RCV"⟩) 1 0 :=
  ⟨c6_ack_transitions.2.2.2 5 (by omega),
   c6_ack_transitions.2.1 _ 0 0 rfl,
   c6_ack_transitions.2.2.1 _ 0 0 "NACK" rfl (by decide) (by decide),
   c6_ack_transitions.1 _ 0 0 rfl⟩

/-! ## Claims C2, C3: cover open and white-LED color commands -/

/-- C2 (code evaluated at the failing input): for a pergola/lamella cover
(`DaisyCover`, type 24), `open_cover("100")` issues the single
OPEN_STOP_CLOSE open command (param `"OPEN"`, id 94, channel `"CH4"`) and
`open_cover("33")` issues the LEVEL command with param `"LEV2"`, id 97 and
channel `"CH2"`; but `open_cover(None)` (percent omitted) issues no command
at all: it falls through to `_control_cover(None)`, whose `percent_map`
lookup raises `KeyError`.  The same holds for the ZIP cover (`DaisyShade`,
type 22, whose open command is id 75, channel `"CH5"`). -/
theorem c2_open_cover_eval :
    coverOpenCover ⟨5, 77, 24⟩ (some "100")
      = .ok ⟨"5", 77, "OPEN_STOP_CLOSE", 94, "OPEN", some "CH4"⟩
  ∧ coverOpenCover ⟨5, 77, 24⟩ none = .error .keyError
  ∧ coverOpenCover ⟨5, 77, 24⟩ (some "33")
      = .ok ⟨"5", 77, "LEVEL", 97, "LEV2", some "CH2"⟩
  ∧ shadeOpenCover ⟨5, 77, 22⟩ (some "100")
      = .ok ⟨"5", 77, "OPEN_STOP_CLOSE", 75, "OPEN", some "CH5"⟩
  ∧ shadeOpenCover ⟨5, 77, 22⟩ none = .error .keyError
  ∧ shadeOpenCover ⟨5, 77, 22⟩ (some "33")
      = .ok ⟨"5", 77, "LEVEL", 97, "LEV2", some "CH2"⟩ :=
  ⟨rfl, rfl, rfl, rfl, rfl, rfl⟩

/-- C3 (code evaluated at the failing input): for a white-LED light
(deviceTypeCode 21) with valid arguments, `set_rgb_and_brightness` sends a
single COLOR command whose command id is the hardcoded literal 137 and
which carries no low-level channel — not id 146 with channel `"CH1"`: the
method assigns those values to local variables and never uses them. -/
theorem c3_white_led_color_command :
    setRgbAndBrightness ⟨5, 77, 21⟩ ⟨none, none, none⟩ (some (255, 0, 0)) (some 50)
      = .ok ⟨"5", 77, "COLOR", 137, "A050R255G000B000", none⟩ := rfl

/-! ## Claim C5: room payload device classification -/

/-- C5: the device loop of `get_room_list` maps a raw device entry with
`idDevicetype` 21 or 23 to the Light variant, 22 to the `DaisyShade` cover
variant, 24 to the `DaisyCover` cover variant, and drops an entry with any
other code while continuing the loop; the payload with codes
`[21, 22, 99, 23, 24]` yields exactly 2 lights and 2 covers, the type-99
entry omitted and the entries after it still present. -/
theorem c5_device_classification :
    (∀ d : RawDevice, d.idDevicetype = 21 ∨ d.idDevicetype = 23 →
        classifyDevice d = some (.light d))
  ∧ (∀ d : RawDevice, d.idDevicetype = 22 → classifyDevice d = some (.shade d))
  ∧ (∀ d : RawDevice, d.idDevicetype = 24 → classifyDevice d = some (.cover d))
  ∧ (∀ d : RawDevice, d.idDevicetype ≠ 21 → d.idDevicetype ≠ 22 →
        d.idDevicetype ≠ 23 → d.idDevicetype ≠ 24 → classifyDevice d = none)
  ∧ (((buildDeviceList [⟨21, "w"⟩, ⟨22, "z"⟩, ⟨99, "u"⟩, ⟨23, "r"⟩, ⟨24, "p"⟩]).filter
        RoomDevice.isLight).length = 2
      ∧ ((buildDeviceList [⟨21, "w"⟩, ⟨22, "z"⟩, ⟨99, "u"⟩, ⟨23, "r"⟩, ⟨24, "p"⟩]).filter
        RoomDevice.isCoverVariant).length = 2
      ∧ buildDeviceList [⟨21, "w"⟩, ⟨22, "z"⟩, ⟨99, "u"⟩, ⟨23, "r"⟩, ⟨24, "p"⟩]
          = [.light ⟨21, "w"⟩, .shade ⟨22, "z"⟩, .light ⟨23, "r"⟩, .cover ⟨24, "p"⟩]) := by
  refine ⟨?_, ?_, ?_, ?_, by decide, by decide, by decide⟩
  · intro d h
    rcases h with h | h <;> simp [classifyDevice, h]
  · intro d h
    simp [classifyDevice, h]
  · intro d h
    simp [classifyDevice, h]
  · intro d h21 h22 h23 h24
    simp [classifyDevice, h21, h22, h23, h24]

/-- C5 witness: the classification applied to one concrete entry per code. -/
theorem c5_device_classification_witness :
    classifyDevice ⟨21, "w"⟩ = some (.light ⟨21, "w"⟩)
  ∧ classifyDevice ⟨23, "r"⟩ = some (.light ⟨23, "r"⟩)
  ∧ classifyDevice ⟨22, "z"⟩ = some (.shade ⟨22, "z"⟩)
  ∧ classifyDevice ⟨24, "p"⟩ = some (.cover ⟨24, "p"⟩)
  ∧ classifyDevice ⟨99, "u"⟩ = none :=
  ⟨c5_device_classification.1 _ (Or.inl rfl),
   c5_device_classification.1 _ (Or.inr rfl),
   c5_device_classification.2.1 _ rfl,
   c5_device_classification.2.2.1 _ rfl,
   c5_device_classification.2.2.2.1 _ (by decide) (by decide) (by decide) (by decide)⟩

/-! ## Claim C7: validation before any network call -/

/-- C7: `set_rgb_and_brightness` raises `ValueError` for a brightness
argument outside `[0, 100]` or any rgb channel outside `[0, 255]`, and
`_control_cover` raises `KeyError` for a percent outside
`{"33", "66", "100"}` — in each case the error is raised before
`feed_the_commands` is reached, so no command is sent and no state
changes. -/
theorem c7_validation_before_network :
    (∀ (d : DeviceIds) (st : LightState) (rgb : Option (Int × Int × Int)) (b : Int),
        b < 0 ∨ b > 100 →
        setRgbAndBrightness d st rgb (some b) = .error .valueError)
  ∧ (∀ (d : DeviceIds) (st : LightState) (bOpt : Option Int) (c : Int × Int × Int),
        c.1 < 0 ∨ c.1 > 255 ∨ c.2.1 < 0 ∨ c.2.1 > 255 ∨ c.2.2 < 0 ∨ c.2.2 > 255 →
        setRgbAndBrightness d st (some c) bOpt = .error .valueError)
  ∧ (∀ (d : DeviceIds) (p : Option String),
        p ≠ some "33" → p ≠ some "66" → p ≠ some "100" →
        controlCover d p = .error .keyError) := by
  refine ⟨?_, ?_, ?_⟩
  · intro d st rgb b h
    simp only [setRgbAndBrightness]
    rw [if_pos h]
  · intro d st bOpt c h
    simp only [setRgbAndBrightness]
    split_ifs with h1
    · rfl
    · rfl
  · intro d p h33 h66 h100
    simp [controlCover, percentMapLookup, h33, h66, h100]

/-- C7 witness: rejected inputs produce the validation errors. -/
theorem c7_validation_before_network_witness :
    setRgbAndBrightness ⟨1, 2, 21⟩ ⟨none, none, none⟩ none (some 101) = .error .valueError
  ∧ setRgbAndBrightness ⟨1, 2, 23⟩ ⟨none, none, none⟩ (some (256, 0, 0)) (some 50)
      = .error .valueError
  ∧ controlCover ⟨1, 2, 24⟩ (some "50") = .error .keyError
  ∧ controlCover ⟨1, 2, 24⟩ none = .error .keyError :=
  ⟨c7_validation_before_network.1 _ _ _ 101 (Or.inr (by omega)),
   c7_validation_before_network.2.1 _ _ _ (256, 0, 0) (Or.inr (Or.inl (by omega))),
   c7_validation_before_network.2.2 _ _ (by decide) (by decide) (by decide),
   c7_validation_before_network.2.2 _ _ (by decide) (by decide) (by decide)⟩

/-! ## Claim C9: login leaves session state unchanged on failure -/

/-- C9: `TelecoDaisy.login` is atomic with respect to session state: when
the response's `codEsito` is not `"S"` it raises and leaves `idAccount` and
`idSession` exactly as they were; only when the success check passes are
both fields assigned from the response. -/
theorem c9_login_atomic :
    (∀ (st : ClientState) (r : LoginResponse), r.codEsito ≠ "S" →
        login st r = (st, true))
  ∧ (∀ (st : ClientState) (r : LoginResponse), r.codEsito = "S" →
        login st r = (⟨some r.idAccount, some r.idSession⟩, false)) := by
  constructor
  · intro st r h
    simp [login, h]
  · intro st r h
    simp [login, h]

/-- C9 witness: a rejected login changes nothing; an accepted one stores
the account and session ids. -/
theorem c9_login_atomic_witness :
    login ⟨none, none⟩ ⟨"KO", 7, "sess"⟩ = (⟨none, none⟩, true)
  ∧ login ⟨some 1, some "old"⟩ ⟨"E", 7, "sess"⟩ = (⟨some 1, some "old"⟩, true)
  ∧ login ⟨none, none⟩ ⟨"S", 7, "sess"⟩ = (⟨some 7, some "sess"⟩, false) :=
  ⟨c9_login_atomic.1 _ _ (by decide),
   c9_login_atomic.1 _ _ (by decide),
   c9_login_atomic.2 _ _ rfl⟩

/-! ## Claim C10: malformed status values raise -/

theorem pySlice_13_16_of_short (v : String) (h : v.length < 14) :
    pySlice v 13 16 = ⟨[]⟩ := by
  have hl : v.toList.length < 14 := h
  simp only [pySlice]
  rw [List.drop_eq_nil_of_le (by omega)]
  simp

theorem lightStep_color_error (st : LightState) (s : DaisyStatus)
    (hc : s.statusitemCode = "COLOR")
    (h : pyInt (pySlice s.statusValue 1 4) = none ∨ pyInt (pySlice s.statusValue 5 8) = none ∨
         pyInt (pySlice s.statusValue 9 12) = none ∨
         pyInt (pySlice s.statusValue 13 16) = none) :
    (lightStep st s).2 = true := by
  simp only [lightStep, hc]
  rcases h1 : pyInt (pySlice s.statusValue 1 4) with _ | b <;>
  rcases h2 : pyInt (pySlice s.statusValue 5 8) with _ | r <;>
  rcases h3 : pyInt (pySlice s.statusValue 9 12) with _ | g <;>
  rcases h4 : pyInt (pySlice s.statusValue 13 16) with _ | bl <;>
  simp_all

theorem lightUpdate_cons_error (st : LightState) (s : DaisyStatus)
    (rest : List DaisyStatus) (h : (lightStep st s).2 = true) :
    lightUpdate st (s :: rest) = ((lightStep st s).1, true) := by
  simp only [lightUpdate]
  rcases hs : lightStep st s with ⟨st1, e⟩
  cases e
  · rw [hs] at h; simp at h
  · simp [hs]

/-- C10 counterexample: the claim as stated is false at a concrete input —
the COLOR value `"A050R255G000B00"` is 15 characters, shorter than 16, yet
the decode of `DaisyLight.update_state` raises nothing: it yields
brightness 50 and rgb `(255, 0, 0)`, the blue field parsed from the two
remaining digits. -/
theorem c10_counterexample :
    "A050R255G000B00".length < 16
  ∧ lightUpdate ⟨none, none, none⟩ [⟨"COLOR", "A050R255G000B00"⟩]
      = (⟨none, some 50, some (255, 0, 0)⟩, false) := by decide

/-- C10 (amended): status decoding is partial on malformed raw values.  For
a light, a COLOR status item whose statusValue is shorter than 14
characters raises an exception (it is not ignored or mapped to unknown),
as does a COLOR item any of whose four sliced fields fails the int()
conversion; for a cover, a LEVEL status item whose statusValue is not
parseable as an integer likewise raises — in each case aborting the whole
update, so the remaining status items are never processed. -/
theorem c10_partial_decoding :
    (∀ (st : LightState) (s : DaisyStatus) (rest : List DaisyStatus),
        s.statusitemCode = "COLOR" → s.statusValue.length < 14 →
        lightUpdate st (s :: rest) = ((lightStep st s).1, true))
  ∧ (∀ (st : LightState) (s : DaisyStatus) (rest : List DaisyStatus),
        s.statusitemCode = "COLOR" →
        (pyInt (pySlice s.statusValue 1 4) = none ∨
         pyInt (pySlice s.statusValue 5 8) = none ∨
         pyInt (pySlice s.statusValue 9 12) = none ∨
         pyInt (pySlice s.statusValue 13 16) = none) →
        lightUpdate st (s :: rest) = ((lightStep st s).1, true))
  ∧ (∀ (st : CoverState) (s : DaisyStatus) (rest : List DaisyStatus),
        s.statusitemCode = "LEVEL" → pyInt s.statusValue = none →
        coverUpdate st (s :: rest) = (st, true)) := by
  refine ⟨?_, ?_, ?_⟩
  · intro st s rest hc hlen
    exact lightUpdate_cons_error st s rest
      (lightStep_color_error st s hc
        (Or.inr (Or.inr (Or.inr (by rw [pySlice_13_16_of_short s.statusValue hlen]; rfl)))))
  · intro st s rest hc h
    exact lightUpdate_cons_error st s rest (lightStep_color_error st s hc h)
  · intro st s rest hc hv
    simp only [coverUpdate, coverStep, hc, hv]
    simp

/-- C10 witness: a 13-character COLOR value, a COLOR value with letters in
the brightness field, and a non-integer LEVEL value each abort the update
(the following status item is never processed). -/
theorem c10_partial_decoding_witness :
    lightUpdate ⟨none, none, none⟩ [⟨"COLOR", "A050R255G000B"⟩, ⟨"POWER", "ON"⟩]
      = ((lightStep ⟨none, none, none⟩ ⟨"COLOR", "A050R255G000B"⟩).1, true)
  ∧ lightUpdate ⟨none, none, none⟩ [⟨"COLOR", "AxxxR255G000B000"⟩]
      = ((lightStep ⟨none, none, none⟩ ⟨"COLOR", "AxxxR255G000B000"⟩).1, true)
  ∧ coverUpdate ⟨none, none⟩ [⟨"LEVEL", "42x"⟩, ⟨"OPEN_CLOSE", "OPEN"⟩]
      = (⟨none, none⟩, true) :=
  ⟨c10_partial_decoding.1 _ _ _ rfl (by decide),
   c10_partial_decoding.2.1 _ _ _ rfl (Or.inl (by decide)),
   c10_partial_decoding.2.2 _ _ _ rfl (by decide)⟩

end TelecoDaisy

